import Mathlib

/-!
# Verification of the NXP Wi-Fi Connection Manager core (wlcmgr)

A shallow embedding, in Lean 4, of the connection-manager routines of the
`wlcmgr` source (`wlan.c`, with constants from `incl/wlcmgr/wlan.h`),
together with theorems settling the specification claims about them.

The embedding models the build without `CONFIG_WPA_SUPP`, `CONFIG_OWE`,
`CONFIG_11R`, `CONFIG_11V`, `CONFIG_11K` and `CONFIG_MBO` (the configuration
the claims' cited lines compile under); `CONFIG_IPV6` is taken as enabled so
the IPv6 substate is visible.  C strings are byte lists (the bytes before the
terminating NUL); machine integers that matter only as small counters are
`Nat`.  Driver calls that live outside this repository
(`wifi_send_scan_cmd`, `wifi_11d_is_channel_allowed`, `net_get_mlan_handle`,
`wlan_get_pmfcfg`, ...) enter as explicit boolean/function parameters.
-/

namespace Wlcmgr

/-- `enum cm_sta_state` from the source, in declaration order
(`CM_STA_INITIALIZING = 0`, ...). -/
inductive CmStaState
  | initializing
  | idle
  | scanning
  | scanningUser
  | associating
  | associated
  | requestingAddress
  | obtainingAddress
  | connected
  deriving DecidableEq, Repr

/-- The numeric value the C enum gives each STA state; the source compares
states with `<` and `>=` through these values. -/
def CmStaState.val : CmStaState → Nat
  | .initializing => 0
  | .idle => 1
  | .scanning => 2
  | .scanningUser => 3
  | .associating => 4
  | .associated => 5
  | .requestingAddress => 6
  | .obtainingAddress => 7
  | .connected => 8

/-- `enum cm_uap_state` from the source (`CM_UAP_INITIALIZING = 0`, ...). -/
inductive CmUapState
  | initializing
  | configured
  | started
  | ipUp
  deriving DecidableEq, Repr

/-- Numeric value of the C `enum cm_uap_state`. -/
def CmUapState.val : CmUapState → Nat
  | .initializing => 0
  | .configured => 1
  | .started => 2
  | .ipUp => 3

/-- The members of `enum wlan_security_type` that are visible in the
modelled build configuration. -/
inductive WlanSecurityType
  | none
  | wildcard
  | wepOpen
  | wepShared
  | wpa
  | wpa2
  | wpa2Sha256
  | wpaWpa2Mixed
  | wpa3Sae
  | wpa2Wpa3SaeMixed
  deriving DecidableEq, Repr

/-- `enum wlan_bss_role`: station or micro-AP. -/
inductive WlanBssRole
  | sta
  | uap
  deriving DecidableEq, Repr

/-- `enum wlan_bss_type` (the members used by the modelled paths). -/
inductive WlanBssType
  | sta
  | uap
  | any
  deriving DecidableEq, Repr

/-- `enum address_types`: `ADDR_TYPE_STATIC = 0`, `ADDR_TYPE_DHCP = 1`,
`ADDR_TYPE_LLA = 2`. -/
inductive AddrType
  | static
  | dhcp
  | lla
  deriving DecidableEq, Repr

/-- The user-callback reasons (`enum wlan_event_reason`) emitted on the
modelled paths. -/
inductive WlanEventReason
  | success
  | networkNotFound
  | addressFailed
  | userDisconnect
  | uapSuccess
  | uapStartFailed
  | uapStopped
  | uapClientAssoc
  | uapClientConn
  | uapClientDissoc
  deriving DecidableEq, Repr

/-- Return codes of the user API (`WM_SUCCESS`, `-WM_E_INVAL`,
`-WM_E_NOMEM`, `WLAN_ERROR_STATE`, `WLAN_ERROR_ACTION`). -/
inductive ApiResult
  | ok
  | invalid
  | nomem
  | stateError
  | actionError
  deriving DecidableEq, Repr

/-- `#define WLAN_RESCAN_LIMIT 5U` (build without `CONFIG_WPA_SUPP`). -/
def WLAN_RESCAN_LIMIT : Nat := 5

/-- `#define WLAN_RECONNECT_LIMIT 5U`. -/
def WLAN_RECONNECT_LIMIT : Nat := 5

/-- `#define WLAN_NETWORK_NAME_MIN_LENGTH 1U`. -/
def WLAN_NETWORK_NAME_MIN_LENGTH : Nat := 1

/-- `#define WLAN_NETWORK_NAME_MAX_LENGTH 32U`. -/
def WLAN_NETWORK_NAME_MAX_LENGTH : Nat := 32

/-- `#define WLAN_PSK_MIN_LENGTH 8U`. -/
def WLAN_PSK_MIN_LENGTH : Nat := 8

/-- `#define WLAN_PSK_MAX_LENGTH 65U`. -/
def WLAN_PSK_MAX_LENGTH : Nat := 65

/-- `#define WLAN_PASSWORD_MIN_LENGTH 8U`. -/
def WLAN_PASSWORD_MIN_LENGTH : Nat := 8

/-- `#define WLAN_PASSWORD_MAX_LENGTH 255U`. -/
def WLAN_PASSWORD_MAX_LENGTH : Nat := 255

/-- `#define CONFIG_WLAN_KNOWN_NETWORKS 5U` (and
`WLAN_MAX_KNOWN_NETWORKS` aliases it). -/
def WLAN_MAX_KNOWN_NETWORKS : Nat := 5

/-- `#define DELAYED_SLP_CFM_DUR 10U`: the delayed-sleep-confirm dispatcher
timeout, in milliseconds. -/
def DELAYED_SLP_CFM_DUR : Nat := 10

/-- `struct wlan_network_security` — the fields the modelled routines read.
`psk` holds the raw bytes of the `psk[]` buffer (as characters); `psk_len`
and `password_len` are the stored length fields, exactly as in the C
struct (they are separate from the buffer itself). -/
structure WlanNetworkSecurity where
  type : WlanSecurityType
  psk : List Char
  psk_len : Nat
  password_len : Nat
  mfpc : Bool
  mfpr : Bool
  deriving DecidableEq, Repr

/-- `struct wlan_network` — the fields the modelled routines read.  `name`
is the profile-name C string; `ssid` is the SSID C string as its byte list
(empty list = `ssid[0] == '\0'`); `bssid` is the raw 6-byte array. -/
structure WlanNetwork where
  name : String
  ssid : List Nat
  bssid : List Nat
  channel : Nat
  role : WlanBssRole
  type : WlanBssType
  security : WlanNetworkSecurity
  ipAddr : Nat
  ipGw : Nat
  ipAddrType : AddrType
  ssid_specific : Bool
  bssid_specific : Bool
  channel_specific : Bool
  security_specific : Bool
  deriving DecidableEq, Repr

/-- `static int is_bssid_any(char *b)`: true iff all six BSSID bytes are
zero. -/
def is_bssid_any (b : List Nat) : Bool :=
  b.all (· = 0)

/-- `struct wifi_scan_result2` — the descriptor fields `wlcmgr` reads while
matching and selecting.  `ssid` holds exactly the `ssid_len` bytes of the
advertised SSID; `RSSI` is the unsigned per-descriptor signal field the
selection loop compares. -/
structure WifiScanResult2 where
  bssid : List Nat
  ssid : List Nat
  channel : Nat
  RSSI : Nat
  wepStatic : Bool
  wpa : Bool
  wpa2 : Bool
  wpa2_sha256 : Bool
  wpa3_sae : Bool
  phtcap_ie_present : Bool
  wpa_ucst_tkip : Bool
  deriving DecidableEq, Repr

/-- C `strncmp(a, b, n) == 0` over NUL-terminated byte buffers, where a
buffer is modelled by the list of its bytes before the NUL (reads past the
end of the list yield 0, the terminator). -/
def strncmpEq : List Nat → List Nat → Nat → Bool
  | _, _, 0 => true
  | a, b, n + 1 =>
    let ca := a.headD 0
    let cb := b.headD 0
    if ca ≠ cb then false
    else if ca = 0 then true
    else strncmpEq a.tail b.tail n

/-- `static int security_profile_matches(network, res)` — returns nonzero
iff the profile's security type is compatible with the descriptor.  The C
function's `return WM_SUCCESS` paths return 0, which the caller treats as
"no match"; this Bool is `decide (result ≠ 0)`.  `mfpc`/`mfpr` stand for
the global PMF configuration read through `wlan_get_pmfcfg`. -/
def security_profile_matches (mfpc mfpr : Bool)
    (config : WlanNetworkSecurity) (res : WifiScanResult2) : Bool :=
  match config.type with
  | .none =>
    -- no security requested: matches iff the BSS advertises none of
    -- static WEP / WPA2 / WPA (returns WM_SUCCESS = 0 otherwise)
    !(res.wepStatic || res.wpa2 || res.wpa)
  | .wepOpen | .wepShared =>
    -- WEP requires static WEP and no HT capability in the BSS
    if res.phtcap_ie_present then false else res.wepStatic
  | .wpaWpa2Mixed => res.wpa || res.wpa2
  | .wpa2 => res.wpa2 || res.wpa2_sha256
  | .wpa =>
    -- TKIP-only BSS is refused for plain WPA
    if res.wpa_ucst_tkip then false else res.wpa
  | .wpa3Sae =>
    if !mfpc && !mfpr then false else res.wpa3_sae
  | .wpa2Wpa3SaeMixed =>
    if !mfpc && !mfpr then false else (res.wpa3_sae || res.wpa2)
  | _ =>
    -- every remaining type falls through to `return WM_SUCCESS` (= 0)
    false

/-- The hidden-SSID collection condition inside
`network_matches_scan_result`: the collection point is reached only after
the channel-specific and BSSID-specific checks have passed (the function
returns `-WM_FAIL` on either before it); then, with an SSID-specific
profile and no hidden scan underway, a descriptor whose first `ssid_len`
bytes are all zero has its channel appended to the follow-up channel
list. -/
def collects_hidden_channel (network : WlanNetwork) (hidden_scan_on : Bool)
    (res : WifiScanResult2) : Bool :=
  !(network.channel_specific && network.channel ≠ res.channel) &&
  !(network.bssid_specific && network.bssid ≠ res.bssid) &&
  network.ssid_specific && !hidden_scan_on && res.ssid.all (· = 0)

/-- `static int network_matches_scan_result(network, res, ...)` — the pure
match verdict (`WM_SUCCESS` iff the descriptor matches the profile), with
the channel-regulatory check `wifi_11d_is_channel_allowed` supplied as
`allowed` and the global PMF configuration as `mfpc`/`mfpr`.  The hidden
channel side effect is modelled separately by `collects_hidden_channel`. -/
def network_matches_scan_result (mfpc mfpr : Bool) (allowed : Nat → Bool)
    (network : WlanNetwork) (res : WifiScanResult2) : Bool :=
  if network.channel_specific && network.channel ≠ res.channel then false
  else if network.bssid_specific && network.bssid ≠ res.bssid then false
  else if network.ssid_specific &&
      (res.ssid.length = 0 ||
        !strncmpEq network.ssid res.ssid
          (max network.ssid.length res.ssid.length)) then false
  else if network.security_specific &&
      !security_profile_matches mfpc mfpr network.security res then false
  else if !(res.wepStatic || res.wpa3_sae || res.wpa2 || res.wpa ||
        res.wpa2_sha256) &&
      (network.security.psk_len ≠ 0 || network.security.password_len ≠ 0) then
    false
  else if !allowed res.channel then false
  else true

/-- The best-AP selection loop of `handle_scan_results`: the first matching
descriptor is copied to `best_ap`, and a later matching descriptor replaces
it exactly when `best_ap->RSSI > res->RSSI`. -/
def best_ap_fold (matchFn : WifiScanResult2 → Bool)
    (results : List WifiScanResult2) : Option WifiScanResult2 :=
  results.foldl
    (fun best res =>
      if matchFn res then
        match best with
        | Option.none => some res
        | some b => if b.RSSI > res.RSSI then some res else some b
      else best)
    Option.none

/-- The hidden-SSID channels accumulated across the scan loop of
`handle_scan_results` (each qualifying descriptor appends its channel). -/
def hidden_channels (network : WlanNetwork) (hidden_scan_on : Bool)
    (results : List WifiScanResult2) : List Nat :=
  (results.filter (collects_hidden_channel network hidden_scan_on)).map
    (·.channel)

/-- The slice of the module state `wlan` that the connect-scan pipeline
(`do_connect`, `do_scan`, `handle_scan_results`) reads and writes. -/
structure ScanConnState where
  sta_state : CmStaState
  scan_count : Nat
  hidden_scan_on : Bool
  roam_reassoc : Bool
  reassoc_control : Bool
  deriving DecidableEq, Repr

/-- What `handle_scan_results` decided to do with the scan-result set. -/
inductive ScanDecision
  /-- a matching AP was found and `start_association` was issued on it -/
  | associate (best : WifiScanResult2)
  /-- the roam/reassociation fast path kept the current association -/
  | roamKeep
  /-- no match but hidden-SSID channels were collected: directed hidden scan -/
  | hiddenScan (chans : List Nat)
  /-- no match, rescan attempts remaining: `do_scan` re-issued -/
  | rescan
  /-- rescan limit exhausted: `do_connect_failed(NETWORK_NOT_FOUND)` -/
  | fail (reconnectRequested : Bool)
  deriving DecidableEq, Repr

/-- `static void do_scan(network)`: enters `CM_STA_SCANNING`, issues the
scan command (`sendOk` is the driver's `wifi_send_scan_cmd` verdict) and
increments `scan_count` exactly when the command was accepted (on failure
the source instead posts a failure `SCAN_RESULT` event). -/
def do_scan (sendOk : Bool) (s : ScanConnState) : ScanConnState :=
  let s := { s with sta_state := CmStaState.scanning }
  if sendOk then { s with scan_count := s.scan_count + 1 } else s

/-- `static int do_connect(netindex)` for a station profile: resets
`scan_count` to 0, then issues the first scan of the attempt through
`do_scan`. -/
def do_connect (sendOk : Bool) (s : ScanConnState) : ScanConnState :=
  do_scan sendOk { s with scan_count := 0 }

/-- `static void do_connect_failed(reason)`: the STA state returns to
`CM_STA_IDLE` and the reason is reported through the user callback. -/
def do_connect_failed (reason : WlanEventReason) (s : ScanConnState) :
    ScanConnState × List WlanEventReason :=
  ({ s with sta_state := CmStaState.idle }, [reason])

/-- `static void do_hidden_scan(network, num_channels, chan_list)`: enters
`CM_STA_SCANNING` and issues the directed scan; `scan_count` is not
touched. -/
def do_hidden_scan (s : ScanConnState) : ScanConnState :=
  { s with sta_state := CmStaState.scanning }

/-- The tail of `handle_scan_results` (source lines after the matching
branch): the roam fast path, then "re-scan if attempts remain, otherwise
give up with `NETWORK_NOT_FOUND`".  `evs` are callback reasons already
emitted earlier in the call. -/
def handle_scan_results_tail (sendOk : Bool) (s : ScanConnState)
    (evs : List WlanEventReason) :
    ScanConnState × ScanDecision × List WlanEventReason :=
  if s.roam_reassoc then
    ({ s with sta_state := CmStaState.connected, roam_reassoc := false },
      ScanDecision.roamKeep, evs)
  else if s.scan_count < WLAN_RESCAN_LIMIT then
    (do_scan sendOk { s with hidden_scan_on := false },
      ScanDecision.rescan, evs)
  else
    let (s', evs') := do_connect_failed WlanEventReason.networkNotFound s
    (s', ScanDecision.fail s.reassoc_control, evs ++ evs')

/-- `static void handle_scan_results(void)` — the non-`CONFIG_WPA_SUPP`,
non-OWE control flow, for a station profile `network` and the driver's
result set `results`.  `assocOk` stands for `start_association` succeeding
(security configuration plus `wrapper_wifi_assoc` accepted; on failure
`start_association` itself runs `do_connect_failed(NETWORK_NOT_FOUND)` and
control falls through to the rescan tail), `sendOk` for
`wifi_send_scan_cmd` accepting a re-issued scan.  The profile-parameter
update (`update_network_params`) mutates only the profile, which no claim
reads afterwards, and is not tracked.  Returns the updated state slice,
the decision taken, and the callback reasons emitted. -/
def handle_scan_results (mfpc mfpr : Bool) (allowed : Nat → Bool)
    (network : WlanNetwork) (results : List WifiScanResult2)
    (assocOk sendOk : Bool) (s : ScanConnState) :
    ScanConnState × ScanDecision × List WlanEventReason :=
  -- "We're associating unless an error occurs"
  let s := { s with sta_state := CmStaState.associating }
  let matchFn := network_matches_scan_result mfpc mfpr allowed network
  let best := best_ap_fold matchFn results
  let chans := hidden_channels network s.hidden_scan_on results
  match best with
  | some best_ap =>
    if s.roam_reassoc && network.bssid = best_ap.bssid then
      ({ s with sta_state := CmStaState.connected, roam_reassoc := false },
        ScanDecision.roamKeep, [])
    else if assocOk then
      -- `start_association` sets `wlan.roam_reassoc = false` and succeeds
      ({ s with roam_reassoc := false }, ScanDecision.associate best_ap, [])
    else
      -- `start_association` failed after `do_connect_failed`; execution
      -- continues into the rescan tail with `roam_reassoc` cleared
      let (s', evs) :=
        do_connect_failed WlanEventReason.networkNotFound
          { s with roam_reassoc := false }
      handle_scan_results_tail sendOk s' evs
  | Option.none =>
    if chans ≠ [] then
      (do_hidden_scan { s with hidden_scan_on := true },
        ScanDecision.hiddenScan chans, [])
    else
      handle_scan_results_tail sendOk s []

/-! ## Helper lemmas about the best-AP selection fold -/

/-- The selection step used by `best_ap_fold`. -/
def best_ap_step (matchFn : WifiScanResult2 → Bool)
    (best : Option WifiScanResult2) (res : WifiScanResult2) :
    Option WifiScanResult2 :=
  if matchFn res then
    match best with
    | Option.none => some res
    | some b => if b.RSSI > res.RSSI then some res else some b
  else best

theorem best_ap_fold_eq_foldl (matchFn : WifiScanResult2 → Bool)
    (results : List WifiScanResult2) :
    best_ap_fold matchFn results = results.foldl (best_ap_step matchFn)
      Option.none := by
  rfl

/-- Invariant of the selection fold, starting from an accumulator `a` that
matches: the final answer matches, is the accumulator or a list element,
and its `RSSI` field is a lower bound of the accumulator's and of every
matching element's. -/
theorem best_ap_fold_go (matchFn : WifiScanResult2 → Bool) :
    ∀ (rs : List WifiScanResult2) (a b : WifiScanResult2),
      matchFn a = true →
      rs.foldl (best_ap_step matchFn) (some a) = some b →
      (b = a ∨ b ∈ rs) ∧ matchFn b = true ∧ b.RSSI ≤ a.RSSI ∧
        ∀ r ∈ rs, matchFn r = true → b.RSSI ≤ r.RSSI := by
  intro rs
  induction rs with
  | nil =>
    intro a b ha hb
    simp only [List.foldl_nil, Option.some.injEq] at hb
    subst hb
    simp [ha]
  | cons r rs ih =>
    intro a b ha hb
    simp only [List.foldl_cons] at hb
    by_cases hr : matchFn r = true
    · by_cases hlt : a.RSSI > r.RSSI
      · have hstep : best_ap_step matchFn (some a) r = some r := by
          simp [best_ap_step, hr, hlt]
        rw [hstep] at hb
        obtain ⟨hmem, hmatch, hle, hall⟩ := ih r b hr hb
        refine ⟨?_, hmatch, ?_, ?_⟩
        · rcases hmem with h | h
          · exact Or.inr (by simp [h])
          · exact Or.inr (List.mem_cons_of_mem _ h)
        · exact le_trans hle (le_of_lt hlt)
        · intro x hx hmx
          rcases List.mem_cons.mp hx with h | h
          · subst h; exact hle
          · exact hall x h hmx
      · have hstep : best_ap_step matchFn (some a) r = some a := by
          simp [best_ap_step, hr, hlt]
        rw [hstep] at hb
        obtain ⟨hmem, hmatch, hle, hall⟩ := ih a b ha hb
        refine ⟨?_, hmatch, hle, ?_⟩
        · rcases hmem with h | h
          · exact Or.inl h
          · exact Or.inr (List.mem_cons_of_mem _ h)
        · intro x hx hmx
          rcases List.mem_cons.mp hx with h | h
          · subst h
            exact le_trans hle (le_of_not_lt hlt)
          · exact hall x h hmx
    · have hstep : best_ap_step matchFn (some a) r = some a := by
        simp [best_ap_step, hr]
      rw [hstep] at hb
      obtain ⟨hmem, hmatch, hle, hall⟩ := ih a b ha hb
      refine ⟨?_, hmatch, hle, ?_⟩
      · rcases hmem with h | h
        · exact Or.inl h
        · exact Or.inr (List.mem_cons_of_mem _ h)
      · intro x hx hmx
        rcases List.mem_cons.mp hx with h | h
        · subst h; simp [hr] at hmx
        · exact hall x h hmx

/-- Specification of the selection loop of `handle_scan_results`: when it
returns a descriptor, that descriptor matches, comes from the result set,
and carries the numerically smallest `RSSI` field among all matching
descriptors. -/
theorem best_ap_fold_spec (matchFn : WifiScanResult2 → Bool)
    (results : List WifiScanResult2) (b : WifiScanResult2)
    (hb : best_ap_fold matchFn results = some b) :
    b ∈ results ∧ matchFn b = true ∧
      ∀ r ∈ results, matchFn r = true → b.RSSI ≤ r.RSSI := by
  rw [best_ap_fold_eq_foldl] at hb
  induction results with
  | nil => simp at hb
  | cons r rs ih =>
    simp only [List.foldl_cons] at hb
    by_cases hr : matchFn r = true
    · have hstep : best_ap_step matchFn Option.none r = some r := by
        simp [best_ap_step, hr]
      rw [hstep] at hb
      obtain ⟨hmem, hmatch, hle, hall⟩ := best_ap_fold_go matchFn rs r b hr hb
      refine ⟨?_, hmatch, ?_⟩
      · rcases hmem with h | h
        · simp [h]
        · exact List.mem_cons_of_mem _ h
      · intro x hx hmx
        rcases List.mem_cons.mp hx with h | h
        · subst h; exact hle
        · exact hall x h hmx
    · have hstep : best_ap_step matchFn Option.none r = Option.none := by
        simp [best_ap_step, hr]
      rw [hstep] at hb
      obtain ⟨hmem, hmatch, hall⟩ := ih hb
      refine ⟨List.mem_cons_of_mem _ hmem, hmatch, ?_⟩
      intro x hx hmx
      rcases List.mem_cons.mp hx with h | h
      · subst h; simp [hr] at hmx
      · exact hall x h hmx

/-- The tail of `handle_scan_results` never starts an association. -/
theorem handle_scan_results_tail_ne_associate (sendOk : Bool)
    (s : ScanConnState) (evs : List WlanEventReason) (b : WifiScanResult2) :
    (handle_scan_results_tail sendOk s evs).2.1 ≠ ScanDecision.associate b := by
  unfold handle_scan_results_tail
  split_ifs <;> simp [do_connect_failed]

/-! ## Disconnect and user-scan request handling -/

/-- The slice of `wlan` read and written by `wlcm_request_disconnect` and
`wlcm_request_scan`. -/
structure StaCtlState where
  sta_state : CmStaState
  sta_return_to : CmStaState
  sta_ipv4_state : CmStaState
  sta_ipv6_state : CmStaState
  is_scan_lock : Bool
  scan_count : Nat
  reassoc_count : Nat
  reassoc_control : Bool
  reassoc_request : Bool
  connect_wakelock_taken : Bool
  scan_cb_set : Bool
  deriving DecidableEq, Repr

/-- `static bool is_user_scanning(void)`. -/
def is_user_scanning (s : StaCtlState) : Bool :=
  s.sta_state = CmStaState.scanningUser

/-- `static bool is_state(state)`: while a user scan is in progress the
stashed pre-scan state is compared instead of `sta_state`. -/
def is_state (s : StaCtlState) (st : CmStaState) : Bool :=
  if is_user_scanning s then s.sta_return_to = st else s.sta_state = st

/-- `static bool is_scanning_allowed(void)`: a user scan may start only
from IDLE or CONNECTED. -/
def is_scanning_allowed (s : StaCtlState) : Bool :=
  is_state s CmStaState.idle || is_state s CmStaState.connected

/-- Result of `wlcm_request_scan` (`msg` carries the user scan request):
the updated state, the `*next` value the dispatcher installs as the new
`sta_state`, and whether `wifi_send_scan_cmd` was invoked. -/
structure ScanReqOut where
  st : StaCtlState
  next : CmStaState
  issued : Bool
  deriving DecidableEq, Repr

/-- `static void wlcm_request_scan(msg, next)`: a request without
parameters, or one arriving in a state where scanning is not allowed,
is dropped and the scan lock is put back (`is_scan_lock = 0`); otherwise
the scan command is issued; if the driver refuses it the lock is also
released, else the callback is stashed, the pre-scan state is saved in
`sta_return_to`, and `*next` becomes `CM_STA_SCANNING_USER`. -/
def wlcm_request_scan (hasData sendOk : Bool) (s : StaCtlState) :
    ScanReqOut :=
  if !hasData then
    { st := { s with is_scan_lock := false }, next := s.sta_state,
      issued := false }
  else if !is_scanning_allowed s then
    { st := { s with is_scan_lock := false }, next := s.sta_state,
      issued := false }
  else if !sendOk then
    { st := { s with is_scan_lock := false }, next := s.sta_state,
      issued := true }
  else
    { st := { s with scan_cb_set := true, sta_return_to := s.sta_state },
      next := CmStaState.scanningUser, issued := true }

/-- Result of `wlcm_request_disconnect`: the updated state (with `*next`
already folded into `sta_state`, as `cm_main` does), the callback reasons
emitted, and whether the interface was brought down
(`net_interface_down`) / a deauthenticate was sent. -/
structure DisconnectOut where
  st : StaCtlState
  events : List WlanEventReason
  iface_down : Bool
  deauthed : Bool
  deriving DecidableEq, Repr

/-- `static void wlcm_request_disconnect(next, curr_nw)` — the
non-`CONFIG_WPA_SUPP` control flow.  `ifUp` stands for
`net_get_mlan_handle()` returning a live interface handle for a station
`curr_nw` (when it is `false`, or `curr_nw` is not a station, the function
only logs and returns).  The dispatcher assigns `*next` to `sta_state`
after the call; this function returns that final state. -/
def wlcm_request_disconnect (ifUp : Bool) (currNwTypeSta : Bool)
    (s : StaCtlState) : DisconnectOut :=
  let if_handle := currNwTypeSta && ifUp
  if !if_handle then
    { st := s, events := [], iface_down := false, deauthed := false }
  else
    -- dhcp stop + net_interface_down happen before any state dispatch
    if s.sta_state.val < CmStaState.idle.val || is_state s CmStaState.idle then
      { st := s, events := [], iface_down := true, deauthed := false }
    else
      let r :=
        if is_user_scanning s &&
            s.sta_return_to ≠ CmStaState.idle then
          if CmStaState.associating.val ≤ s.sta_return_to.val then
            ({ s with sta_return_to := CmStaState.idle,
                      sta_state := CmStaState.idle,
                      sta_ipv4_state := CmStaState.idle,
                      sta_ipv6_state := CmStaState.idle }, true)
          else (s, false)
        else if CmStaState.associating.val ≤ s.sta_state.val then
          let s :=
            if s.is_scan_lock then { s with is_scan_lock := false } else s
          ({ s with sta_state := CmStaState.idle,
                    sta_ipv4_state := CmStaState.idle,
                    sta_ipv6_state := CmStaState.idle }, true)
        else if s.sta_state = CmStaState.scanning then
          ({ s with sta_state := CmStaState.idle,
                    sta_ipv4_state := CmStaState.idle,
                    sta_ipv6_state := CmStaState.idle }, false)
        else (s, false)
      let s := r.1
      let s :=
        if s.reassoc_control && s.reassoc_request then
          { s with scan_count := WLAN_RESCAN_LIMIT,
                   reassoc_count := WLAN_RECONNECT_LIMIT,
                   reassoc_request := false }
        else s
      let s :=
        if s.connect_wakelock_taken then
          { s with connect_wakelock_taken := false }
        else s
      { st := s, events := [WlanEventReason.userDisconnect],
        iface_down := true, deauthed := r.2 }

/-! ## Profile store: key validation, add and remove -/

/-- `static bool isHexNumber(const char *str, const uint8_t len)`: the
first `len` characters are all hexadecimal digits. -/
def isHexNumber (str : List Char) (len : Nat) : Bool :=
  (str.take len).all fun c =>
    ('0' ≤ c && c ≤ '9') || ('A' ≤ c && c ≤ 'F') || ('a' ≤ c && c ≤ 'f')

/-- `static bool wlan_is_key_valid(network)` — the build without
`CONFIG_WPA_SUPP`: WPA/WPA2/WPA2-SHA256/mixed check the PSK length (8..64,
with exactly 64 requiring hex digits); WPA2/WPA3-SAE-mixed additionally
falls through into the WPA3-SAE password-length check (8..255); WEP is
always invalid, as is any type not listed. -/
def wlan_is_key_valid (network : WlanNetwork) : Bool :=
  let sec := network.security
  let pskCheck : Bool :=
    if sec.psk_len < WLAN_PSK_MIN_LENGTH ||
        WLAN_PSK_MAX_LENGTH ≤ sec.psk_len then false
    else if sec.psk_len = WLAN_PSK_MAX_LENGTH - 1 &&
        !isHexNumber sec.psk sec.psk_len then false
    else true
  let passwordCheck : Bool :=
    !(sec.password_len < WLAN_PASSWORD_MIN_LENGTH ||
      WLAN_PASSWORD_MAX_LENGTH < sec.password_len)
  match sec.type with
  | .wpa | .wpa2 | .wpaWpa2Mixed | .wpa2Sha256 => pskCheck
  | .wpa2Wpa3SaeMixed =>
    -- the `case WLAN_SECURITY_WPA2_WPA3_SAE_MIXED` body has no `break`
    -- and falls through into the WPA3-SAE password check
    pskCheck && passwordCheck
  | .wpa3Sae => passwordCheck
  | .none | .wildcard => true
  | .wepOpen | .wepShared => false

/-- An empty profile slot (`memset(&wlan.networks[i], 0, ...)`); a slot is
occupied iff its `name` is non-empty (`name[0] != '\0'`). -/
def emptyNetwork : WlanNetwork :=
  { name := ""
    ssid := []
    bssid := [0, 0, 0, 0, 0, 0]
    channel := 0
    role := WlanBssRole.sta
    type := WlanBssType.sta
    security :=
      { type := WlanSecurityType.none, psk := [], psk_len := 0,
        password_len := 0, mfpc := false, mfpr := false }
    ipAddr := 0
    ipGw := 0
    ipAddrType := AddrType.static
    ssid_specific := false
    bssid_specific := false
    channel_specific := false
    security_specific := false }

/-- The duplicate-name / free-slot scan of `wlan_add_network`: walk the
slots in order, rejecting on an occupied slot whose name equals the new
name (`strlen` equal and `strncmp` equal, i.e. string equality) and
remembering the first free slot (`pos`).
The C loop returns `-WM_E_INVAL` as soon as a duplicate is seen; here the
duplicate verdict is a flag the caller turns into the same result.  `i` is
the index of the first slot of `store`. -/
def find_slot (name : String) : Nat → List WlanNetwork → Option Nat × Bool
  | _, [] => (Option.none, false)
  | i, nw :: rest =>
    let r := find_slot name (i + 1) rest
    if nw.name ≠ "" then
      if nw.name = name then (r.1, true) else r
    else (some i, r.2)

/-- `static bool is_running(void)`. -/
def is_running (running : Bool) (s : StaCtlState) : Bool :=
  running && CmStaState.idle.val ≤ s.sta_state.val

/-- "Make sure network type is set correctly if not set correct values as
per role" (the type-normalization block of `wlan_add_network`). -/
def normalize_bss_type (network : WlanNetwork) : WlanNetwork :=
  if network.type = WlanBssType.sta || network.type = WlanBssType.any then
    match network.role with
    | WlanBssRole.uap => { network with type := WlanBssType.uap }
    | WlanBssRole.sta => { network with type := WlanBssType.sta }
  else network

/-- `int wlan_add_network(struct wlan_network *network)` — the
non-`CONFIG_WPA_SUPP` path.  `running`/`sta` describe the manager state
read by the STA-role precondition, `clearPskOk` is the verdict of the
`wifi_send_clear_wpa_psk` driver call issued after the slot is written.
Returns the API result and the updated slot array. -/
def wlan_add_network (running : Bool) (sta : StaCtlState)
    (clearPskOk : Bool) (store : List WlanNetwork)
    (network : WlanNetwork) : ApiResult × List WlanNetwork :=
  if network.role = WlanBssRole.sta &&
      (is_running running sta && !is_state sta CmStaState.idle &&
        !is_state sta CmStaState.associated &&
        !is_state sta CmStaState.connected) then
    (ApiResult.stateError, store)
  else
    if network.name.length < WLAN_NETWORK_NAME_MIN_LENGTH ||
        WLAN_NETWORK_NAME_MAX_LENGTH ≤ network.name.length then
      (ApiResult.invalid, store)
    else if network.ssid = [] && is_bssid_any network.bssid then
      (ApiResult.invalid, store)
    else if network.role = WlanBssRole.uap &&
        network.ipGw ≠ network.ipAddr then
      (ApiResult.invalid, store)
    else if (network.security.type = WlanSecurityType.wpa2Sha256 ||
          network.security.type = WlanSecurityType.wpa2Wpa3SaeMixed) &&
        !network.security.mfpc then
      (ApiResult.invalid, store)
    else if network.security.type = WlanSecurityType.wpa3Sae &&
        (!network.security.mfpc || !network.security.mfpr) then
      (ApiResult.invalid, store)
    else if !wlan_is_key_valid network then
      (ApiResult.invalid, store)
    else
      let network := normalize_bss_type network
      match find_slot network.name 0 store with
      | (_, true) => (ApiResult.invalid, store)
      | (Option.none, false) => (ApiResult.nomem, store)
      | (some pos, false) =>
        let stored :=
          { network with
            ssid_specific := network.ssid ≠ []
            bssid_specific := !is_bssid_any network.bssid
            channel_specific := network.channel ≠ 0
            security_specific :=
              if network.security.type ≠ WlanSecurityType.wildcard then true
              else network.security_specific }
        let store' := store.set pos stored
        if network.role = WlanBssRole.sta &&
            (network.security.type ≠ WlanSecurityType.none &&
              network.security.type ≠ WlanSecurityType.wepOpen) &&
            !clearPskOk then
          (ApiResult.actionError, store')
        else
          (ApiResult.ok, store')

/-- `int wlan_remove_network(const char *name)`: find the first occupied
slot with a matching name; refuse while it is the in-use STA profile of a
CONNECTED station (resp. the in-use uAP profile of an IP_UP micro-AP);
otherwise clear the slot.  `cur_idx`/`cur_uap_idx` are
`wlan.cur_network_idx`/`wlan.cur_uap_network_idx`. -/
def wlan_remove_network (running : Bool) (sta : StaCtlState)
    (uap_state : CmUapState) (cur_idx cur_uap_idx : Nat)
    (store : List WlanNetwork) (name : String) :
    ApiResult × List WlanNetwork :=
  if !is_running running sta then
    (ApiResult.stateError, store)
  else
    match store.enum.find? (fun p => p.2.name ≠ "" && p.2.name = name) with
    | Option.none => (ApiResult.invalid, store)
    | some (i, _) =>
      if running && cur_idx = i && is_state sta CmStaState.connected then
        (ApiResult.stateError, store)
      else if cur_uap_idx = i && uap_state = CmUapState.ipUp then
        (ApiResult.stateError, store)
      else
        (ApiResult.ok, store.set i emptyNetwork)

/-- The names of the occupied slots of a profile store. -/
def storeNames (store : List WlanNetwork) : List String :=
  (store.filter (fun nw => nw.name ≠ "")).map (·.name)

/-- The store invariant of §4.1: occupied slots carry pairwise-distinct
names. -/
def NamesDistinct (store : List WlanNetwork) : Prop :=
  (storeNames store).Nodup

/-! ### Helper lemmas about the profile store -/

theorem storeNames_cons (nw : WlanNetwork) (rest : List WlanNetwork) :
    storeNames (nw :: rest) =
      if nw.name ≠ "" then nw.name :: storeNames rest else storeNames rest := by
  by_cases h : nw.name = "" <;> simp [storeNames, h]

theorem mem_storeNames_ne_empty {x : String} {store : List WlanNetwork}
    (h : x ∈ storeNames store) : x ≠ "" := by
  induction store with
  | nil => simp [storeNames] at h
  | cons nw rest ih =>
    rw [storeNames_cons] at h
    by_cases hn : nw.name = ""
    · simp [hn] at h
      exact ih h
    · simp [hn] at h
      rcases h with h | h
      · subst h; exact hn
      · exact ih h

theorem storeNames_subset_cons (nw : WlanNetwork) (rest : List WlanNetwork)
    {x : String} (h : x ∈ storeNames rest) : x ∈ storeNames (nw :: rest) := by
  rw [storeNames_cons]
  by_cases hn : nw.name = "" <;> simp [hn, h]

/-- An element of the names of a store with one slot overwritten is an old
name or the written profile's name. -/
theorem mem_storeNames_set {x : String} (stored : WlanNetwork) :
    ∀ (store : List WlanNetwork) (j : Nat),
      x ∈ storeNames (store.set j stored) →
      x ∈ storeNames store ∨ x = stored.name := by
  intro store
  induction store with
  | nil => intro j h; simp [List.set] at h; simp [storeNames] at h
  | cons nw rest ih =>
    intro j h
    cases j with
    | zero =>
      simp only [List.set] at h
      rw [storeNames_cons] at h
      by_cases hs : stored.name = ""
      · simp [hs] at h
        exact Or.inl (storeNames_subset_cons nw rest h)
      · simp [hs] at h
        rcases h with h | h
        · exact Or.inr h
        · exact Or.inl (storeNames_subset_cons nw rest h)
    | succ k =>
      simp only [List.set] at h
      rw [storeNames_cons] at h
      by_cases hn : nw.name = ""
      · simp [hn] at h
        rcases ih k h with h' | h'
        · exact Or.inl (storeNames_subset_cons nw rest h')
        · exact Or.inr h'
      · simp [hn] at h
        rcases h with h | h
        · exact Or.inl (by rw [storeNames_cons]; simp [hn, h])
        · rcases ih k h with h' | h'
          · exact Or.inl (storeNames_subset_cons nw rest h')
          · exact Or.inr h'

/-- Overwriting one slot with a profile whose name is not yet in the store
preserves the distinct-names invariant. -/
theorem namesDistinct_set (stored : WlanNetwork) :
    ∀ (store : List WlanNetwork) (j : Nat),
      NamesDistinct store → stored.name ∉ storeNames store →
      NamesDistinct (store.set j stored) := by
  intro store
  induction store with
  | nil => intro j _ _; simp [List.set, NamesDistinct, storeNames]
  | cons nw rest ih =>
    intro j hnodup hnotin
    cases j with
    | zero =>
      simp only [List.set]
      unfold NamesDistinct at hnodup ⊢
      rw [storeNames_cons] at hnodup ⊢
      by_cases hs : stored.name = ""
      · simp only [hs]
        simp only [ne_eq, not_true_eq_false, if_false]
        by_cases hn : nw.name = ""
        · simpa [hn] using hnodup
        · simp [hn] at hnodup
          exact hnodup.2
      · simp only [ne_eq, hs, not_false_eq_true, if_true]
        have hrest : (storeNames rest).Nodup := by
          by_cases hn : nw.name = ""
          · simpa [hn] using hnodup
          · simp [hn] at hnodup
            exact hnodup.2
        refine List.nodup_cons.mpr ⟨?_, hrest⟩
        intro hmem
        exact hnotin (storeNames_subset_cons nw rest hmem)
    | succ k =>
      simp only [List.set]
      unfold NamesDistinct at hnodup ⊢
      rw [storeNames_cons] at hnodup ⊢
      by_cases hn : nw.name = ""
      · simp only [ne_eq, hn, not_true_eq_false, if_false] at hnodup ⊢
        refine ih k hnodup ?_
        intro hmem
        exact hnotin (storeNames_subset_cons nw rest hmem)
      · simp only [ne_eq, hn, not_false_eq_true, if_true,
          List.nodup_cons] at hnodup ⊢
        obtain ⟨hnm, hrest⟩ := hnodup
        have hnotin' : stored.name ∉ storeNames rest := fun hmem =>
          hnotin (storeNames_subset_cons nw rest hmem)
        refine ⟨?_, ih k hrest hnotin'⟩
        intro hmem
        rcases mem_storeNames_set stored rest k hmem with h' | h'
        · exact hnm h'
        · apply hnotin
          rw [storeNames_cons]
          simp only [ne_eq, hn, not_false_eq_true, if_true]
          exact List.mem_cons.mpr (Or.inl h'.symm)

theorem find_slot_cons (name : String) (i : Nat) (nw : WlanNetwork)
    (rest : List WlanNetwork) :
    find_slot name i (nw :: rest) =
      if nw.name ≠ "" then
        if nw.name = name then ((find_slot name (i + 1) rest).1, true)
        else find_slot name (i + 1) rest
      else (some i, (find_slot name (i + 1) rest).2) := by
  simp [find_slot]

/-- The duplicate flag of `find_slot` is set exactly when some occupied
slot bears the sought name. -/
theorem find_slot_dup_iff (name : String) :
    ∀ (store : List WlanNetwork) (i : Nat),
      (find_slot name i store).2 = true ↔ name ∈ storeNames store := by
  intro store
  induction store with
  | nil => intro i; simp [find_slot, storeNames]
  | cons nw rest ih =>
    intro i
    rw [storeNames_cons, find_slot_cons]
    split_ifs with h1 h2
    · constructor
      · intro _
        exact List.mem_cons.mpr (Or.inl h2.symm)
      · intro _
        rfl
    · rw [ih (i + 1)]
      constructor
      · intro h
        exact List.mem_cons.mpr (Or.inr h)
      · intro h
        rcases List.mem_cons.mp h with h | h
        · exact absurd h.symm h2
        · exact h
    · exact ih (i + 1)

/-- `find_slot` finds no free slot exactly when every slot is occupied. -/
theorem find_slot_pos_none_iff (name : String) :
    ∀ (store : List WlanNetwork) (i : Nat),
      (find_slot name i store).1 = Option.none ↔
        ∀ nw ∈ store, nw.name ≠ "" := by
  intro store
  induction store with
  | nil => intro i; simp [find_slot]
  | cons nw rest ih =>
    intro i
    rw [find_slot_cons]
    split_ifs with h1 h2
    · simpa [h1] using ih (i + 1)
    · simpa [h1] using ih (i + 1)
    · simp only [ne_eq, not_not] at h1
      simp [h1]

/-- The argument-validation stage of `wlan_add_network` (everything from
the name-length check down to `wlan_is_key_valid`): the profile passes
exactly when none of the `-WM_E_INVAL` early returns fires. -/
def wlan_add_network_validates (network : WlanNetwork) : Bool :=
  !(network.name.length < WLAN_NETWORK_NAME_MIN_LENGTH ||
    WLAN_NETWORK_NAME_MAX_LENGTH ≤ network.name.length) &&
  !(network.ssid = [] && is_bssid_any network.bssid) &&
  !(network.role = WlanBssRole.uap && network.ipGw ≠ network.ipAddr) &&
  !((network.security.type = WlanSecurityType.wpa2Sha256 ||
     network.security.type = WlanSecurityType.wpa2Wpa3SaeMixed) &&
    !network.security.mfpc) &&
  !(network.security.type = WlanSecurityType.wpa3Sae &&
    (!network.security.mfpc || !network.security.mfpr)) &&
  wlan_is_key_valid network

theorem normalize_bss_type_name (network : WlanNetwork) :
    (normalize_bss_type network).name = network.name := by
  unfold normalize_bss_type
  split_ifs
  · cases h : network.role <;> simp
  · rfl

/-- With the manager not running (so the STA-state precondition is moot)
and a profile passing validation, `wlan_add_network` is decided by the
slot scan. -/
theorem wlan_add_network_of_validates (sta : StaCtlState) (clearPskOk : Bool)
    (store : List WlanNetwork) (network : WlanNetwork)
    (hv : wlan_add_network_validates network = true) :
    wlan_add_network false sta clearPskOk store network =
      (let network' := normalize_bss_type network
       match find_slot network'.name 0 store with
       | (_, true) => (ApiResult.invalid, store)
       | (Option.none, false) => (ApiResult.nomem, store)
       | (some pos, false) =>
         let stored :=
           { network' with
             ssid_specific := network'.ssid ≠ []
             bssid_specific := !is_bssid_any network'.bssid
             channel_specific := network'.channel ≠ 0
             security_specific :=
               if network'.security.type ≠ WlanSecurityType.wildcard then true
               else network'.security_specific }
         let store' := store.set pos stored
         if network'.role = WlanBssRole.sta &&
             (network'.security.type ≠ WlanSecurityType.none &&
               network'.security.type ≠ WlanSecurityType.wepOpen) &&
             !clearPskOk then
           (ApiResult.actionError, store')
         else
           (ApiResult.ok, store')) := by
  unfold wlan_add_network_validates at hv
  simp only [Bool.and_eq_true, Bool.not_eq_true'] at hv
  obtain ⟨⟨⟨⟨⟨h1, h2⟩, h3⟩, h4⟩, h5⟩, h6⟩ := hv
  unfold wlan_add_network
  rw [if_neg (by simp [is_running])]
  rw [if_neg (by simpa using h1)]
  rw [if_neg (by simpa using h2)]
  rw [if_neg (by simpa using h3)]
  rw [if_neg (by simpa using h4)]
  rw [if_neg (by simpa using h5)]
  rw [if_neg (by simp [h6])]

/-- A profile whose name is already taken by an occupied slot is rejected
with `-WM_E_INVAL` and the store is unchanged. -/
theorem wlan_add_network_dup (sta : StaCtlState) (clearPskOk : Bool)
    (store : List WlanNetwork) (network : WlanNetwork)
    (hv : wlan_add_network_validates network = true)
    (hdup : network.name ∈ storeNames store) :
    wlan_add_network false sta clearPskOk store network =
      (ApiResult.invalid, store) := by
  rw [wlan_add_network_of_validates sta clearPskOk store network hv]
  have hdup' : (find_slot (normalize_bss_type network).name 0 store).2 =
      true := by
    rw [normalize_bss_type_name]
    exact (find_slot_dup_iff _ store 0).mpr hdup
  rcases hfs : find_slot (normalize_bss_type network).name 0 store
    with ⟨pos, dup⟩
  rw [hfs] at hdup'
  simp only at hdup'
  subst hdup'
  simp only [hfs]

/-- Adding to a store whose slots are all occupied (and that does not
already hold the name) returns `-WM_E_NOMEM` and leaves the store
unchanged. -/
theorem wlan_add_network_full (sta : StaCtlState) (clearPskOk : Bool)
    (store : List WlanNetwork) (network : WlanNetwork)
    (hv : wlan_add_network_validates network = true)
    (hfull : ∀ nw ∈ store, nw.name ≠ "")
    (hnodup : network.name ∉ storeNames store) :
    wlan_add_network false sta clearPskOk store network =
      (ApiResult.nomem, store) := by
  rw [wlan_add_network_of_validates sta clearPskOk store network hv]
  have hpos : (find_slot (normalize_bss_type network).name 0 store).1 =
      Option.none :=
    (find_slot_pos_none_iff _ store 0).mpr hfull
  have hdup' : (find_slot (normalize_bss_type network).name 0 store).2 ≠
      true := by
    rw [normalize_bss_type_name]
    intro hcontr
    exact hnodup ((find_slot_dup_iff _ store 0).mp hcontr)
  rcases hfs : find_slot (normalize_bss_type network).name 0 store
    with ⟨pos, dup⟩
  rw [hfs] at hpos hdup'
  simp only at hpos hdup'
  subst hpos
  cases dup
  · simp only [hfs]
  · exact absurd rfl hdup'

/-- Every outcome of `wlan_add_network` preserves the distinct-names
invariant of the store. -/
theorem wlan_add_network_preserves_distinct (running : Bool)
    (sta : StaCtlState) (clearPskOk : Bool) (store : List WlanNetwork)
    (network : WlanNetwork) (h : NamesDistinct store) :
    NamesDistinct (wlan_add_network running sta clearPskOk store network).2
    := by
  unfold wlan_add_network
  split_ifs <;> try exact h
  rcases hfs : find_slot (normalize_bss_type network).name 0 store
    with ⟨pos, dup⟩
  have hnotin : dup = false →
      (normalize_bss_type network).name ∉ storeNames store := by
    intro hd hmem
    have : (find_slot (normalize_bss_type network).name 0 store).2 = true :=
      (find_slot_dup_iff _ store 0).mpr hmem
    rw [hfs] at this
    simp only at this
    rw [hd] at this
    exact Bool.false_ne_true this
  cases dup
  · cases pos with
    | none => simp only [hfs]; exact h
    | some p =>
      simp only [hfs]
      split_ifs <;>
        exact namesDistinct_set _ store p h (hnotin rfl)
  · cases pos <;> (simp only [hfs]; exact h)

/-- Every outcome of `wlan_remove_network` preserves the distinct-names
invariant of the store. -/
theorem wlan_remove_network_preserves_distinct (running : Bool)
    (sta : StaCtlState) (uap_state : CmUapState) (cur_idx cur_uap_idx : Nat)
    (store : List WlanNetwork) (name : String) (h : NamesDistinct store) :
    NamesDistinct
      (wlan_remove_network running sta uap_state cur_idx cur_uap_idx store
        name).2 := by
  unfold wlan_remove_network
  split_ifs
  · exact h
  · rcases hf : store.enum.find?
        (fun p => p.2.name ≠ "" && p.2.name = name) with _ | ⟨i, nw⟩
    · simp only [hf]; exact h
    · simp only [hf]
      split_ifs
      · exact h
      · exact h
      · refine namesDistinct_set emptyNetwork store i h ?_
        intro hmem
        exact mem_storeNames_ne_empty hmem rfl

/-- `wlan_add_network` and `wlan_remove_network` never change the number
of slots of the store. -/
theorem wlan_store_length_invariant (running : Bool) (sta : StaCtlState)
    (clearPskOk : Bool) (uap_state : CmUapState) (cur_idx cur_uap_idx : Nat)
    (store : List WlanNetwork) (network : WlanNetwork) (name : String) :
    (wlan_add_network running sta clearPskOk store network).2.length =
        store.length ∧
      (wlan_remove_network running sta uap_state cur_idx cur_uap_idx store
        name).2.length = store.length := by
  constructor
  · unfold wlan_add_network
    split_ifs <;> try rfl
    rcases hfs : find_slot (normalize_bss_type network).name 0 store
      with ⟨pos, dup⟩
    cases dup
    · cases pos with
      | none => simp only [hfs]
      | some p =>
        simp only [hfs]
        split_ifs <;> simp [List.length_set]
    · cases pos <;> simp only [hfs]
  · unfold wlan_remove_network
    split_ifs
    · rfl
    · rcases hf : store.enum.find?
          (fun p => p.2.name ≠ "" && p.2.name = name) with _ | ⟨i, nw⟩
      · simp only [hf]
      · simp only [hf]
        split_ifs <;> simp [List.length_set]

/-! ## Sleep-confirm protocol and dispatcher timeout handling -/

/-- The driver-facing power-save state `cm_ps_state`
(`PS_STATE_AWAKE`, `PS_STATE_PRE_SLEEP`, `PS_STATE_SLEEP_CFM`,
`PS_STATE_SLEEP`). -/
inductive CmPsState
  | awake
  | preSleep
  | sleepCfm
  | sleep
  deriving DecidableEq, Repr

/-- The slice of state touched by `wlan_host_sleep_and_sleep_confirm`. -/
structure SleepConfirmState where
  cm_ps_state : CmPsState
  g_req_sl_confirm : Bool
  hs_configured : Bool
  deriving DecidableEq, Repr

/-- `static void wlan_host_sleep_and_sleep_confirm(void)`, the deferred
sleep-confirm attempt run on entry to (or re-entry of) `IEEEPS_PRE_SLEEP`:
with an outstanding driver transfer (`xferPending` =
`wifi_get_xfer_pending()`), or — when host-sleep is configured — with the
host-sleep command refused (`hsSendOk` = `wlan_send_host_sleep_int`
verdict) or with neither the uAP started nor the STA effectively
CONNECTED, the confirm is deferred by setting `g_req_sl_confirm`;
otherwise `cm_ps_state` becomes `SLEEP_CFM`, the confirm command is sent
and the flag is cleared.  The second component reports whether
`send_sleep_confirm_command` was invoked. -/
def wlan_host_sleep_and_sleep_confirm (xferPending hsSendOk uapStarted
    staConnected : Bool) (s : SleepConfirmState) :
    SleepConfirmState × Bool :=
  if xferPending then
    ({ s with g_req_sl_confirm := true }, false)
  else if s.hs_configured && (!hsSendOk || (!uapStarted && !staConnected))
  then
    ({ s with g_req_sl_confirm := true }, false)
  else
    ({ s with cm_ps_state := CmPsState.sleepCfm,
              g_req_sl_confirm := false }, true)

/-- The queue-receive timeout `cm_main` passes to `os_queue_recv`: the
10 ms delayed-sleep-confirm tick while `g_req_sl_confirm` is set, and
blocking forever (`none`) otherwise. -/
def cm_main_recv_timeout (g_req_sl_confirm : Bool) : Option Nat :=
  if g_req_sl_confirm then some DELAYED_SLP_CFM_DUR else Option.none

/-- The timed-out branch of the `cm_main` dispatcher loop: whether
`wlan_ieeeps_sm(IEEEPS_EVENT_SLEEP)` is re-driven, namely exactly when the
STA is (effectively) CONNECTED and `g_req_sl_confirm` is still set. -/
def cm_main_timeout_retries (staConnected g_req_sl_confirm : Bool) : Bool :=
  if !staConnected then false
  else g_req_sl_confirm

/-! ## uAP state machine -/

/-- The events `uap_state_machine` dispatches on (the modelled subset). -/
inductive UapEvent
  | userStart
  | userStop
  | uapStarted
  | uapClientAssoc
  | uapClientConn
  | uapClientDeauth
  | uapStopped
  | uapNetAddrConfig
  deriving DecidableEq, Repr

/-- `static enum cm_uap_state uap_state_machine(msg)` — the
non-`CONFIG_WPA_SUPP` event dispatch, returning the next uAP state and the
callback reasons emitted.  `reasonSuccess` is `msg->reason ==
WIFI_EVENT_REASON_SUCCESS`; `netCfgOk` is the verdict of
`net_configure_address`; `addrTypeStatic` is `network->ip.ipv4.addr_type
== ADDR_TYPE_STATIC` for the current uAP profile; `doStartStopOk` covers
the `do_start`/`do_stop` driver commands whose state changes arrive as
later events. -/
def uap_state_machine (uap_state : CmUapState) (ev : UapEvent)
    (reasonSuccess netCfgOk addrTypeStatic : Bool) :
    CmUapState × List WlanEventReason :=
  match ev with
  | UapEvent.userStart => (uap_state, [])
  | UapEvent.userStop => (uap_state, [])
  | UapEvent.uapStarted =>
    if uap_state ≠ CmUapState.configured then
      -- "Ignoring address config event as uap not in configured state"
      (uap_state, [])
    else if reasonSuccess then
      if !netCfgOk then
        -- "TCP/IP stack setup failed"
        (uap_state, [WlanEventReason.addressFailed])
      else
        (CmUapState.started, [])
    else
      (uap_state, [WlanEventReason.uapStartFailed])
  | UapEvent.uapClientAssoc =>
    (uap_state, [WlanEventReason.uapClientAssoc])
  | UapEvent.uapClientConn =>
    (uap_state, [WlanEventReason.uapClientConn])
  | UapEvent.uapClientDeauth =>
    (uap_state, [WlanEventReason.uapClientDissoc])
  | UapEvent.uapStopped =>
    (uap_state, [WlanEventReason.uapStopped])
  | UapEvent.uapNetAddrConfig =>
    if uap_state ≠ CmUapState.started then
      -- "Ignoring address config event as uap not in started state"
      (uap_state, [])
    else if reasonSuccess && addrTypeStatic then
      (CmUapState.ipUp, [WlanEventReason.uapSuccess])
    else
      (CmUapState.initializing, [WlanEventReason.addressFailed])

/-! ## Concrete inputs used by the claim theorems -/

/-- An open (no-security) station profile pinned to SSID "AB". -/
def c1Network : WlanNetwork :=
  { name := "home"
    ssid := [65, 66]
    bssid := [0, 0, 0, 0, 0, 0]
    channel := 0
    role := WlanBssRole.sta
    type := WlanBssType.sta
    security :=
      { type := WlanSecurityType.none, psk := [], psk_len := 0,
        password_len := 0, mfpc := false, mfpr := false }
    ipAddr := 0
    ipGw := 0
    ipAddrType := AddrType.dhcp
    ssid_specific := true
    bssid_specific := false
    channel_specific := false
    security_specific := false }

/-- An open BSS advertising SSID "AB" with RSSI field 40. -/
def c1Res1 : WifiScanResult2 :=
  { bssid := [1, 1, 1, 1, 1, 1]
    ssid := [65, 66]
    channel := 1
    RSSI := 40
    wepStatic := false
    wpa := false
    wpa2 := false
    wpa2_sha256 := false
    wpa3_sae := false
    phtcap_ie_present := false
    wpa_ucst_tkip := false }

/-- Like `c1Res1` but a different BSSID and RSSI field 70. -/
def c1Res2 : WifiScanResult2 :=
  { c1Res1 with bssid := [2, 2, 2, 2, 2, 2], RSSI := 70 }

/-- A connect-scan in progress: first scan issued, no roam. -/
def c1State : ScanConnState :=
  { sta_state := CmStaState.scanning
    scan_count := 1
    hidden_scan_on := false
    roam_reassoc := false
    reassoc_control := false }

/-- A connect-scan state whose rescan budget is exhausted. -/
def c2StateExhausted : ScanConnState :=
  { c1State with scan_count := 5 }

/-- Mid-connect-scan control state with the scan lock held. -/
def c3State : StaCtlState :=
  { sta_state := CmStaState.scanning
    sta_return_to := CmStaState.idle
    sta_ipv4_state := CmStaState.obtainingAddress
    sta_ipv6_state := CmStaState.obtainingAddress
    is_scan_lock := true
    scan_count := 1
    reassoc_count := 0
    reassoc_control := false
    reassoc_request := false
    connect_wakelock_taken := false
    scan_cb_set := false }

/-- An associating station with the scan lock held and a reassociation
pending. -/
def c3StateAssoc : StaCtlState :=
  { c3State with
    sta_state := CmStaState.associating
    reassoc_control := true
    reassoc_request := true }

/-- A WPA2 station profile parameterised by its PSK and its length. -/
def c4Network (psk : List Char) (psk_len : Nat) : WlanNetwork :=
  { c1Network with
    security :=
      { type := WlanSecurityType.wpa2, psk := psk, psk_len := psk_len,
        password_len := 0, mfpc := false, mfpr := false } }

/-- An open station profile parameterised by its name. -/
def c5Network (name : String) : WlanNetwork :=
  { c1Network with name := name }

/-- A 32-character profile name. -/
def c5Name32 : String := "abcdefghijklmnopqrstuvwxyzabcdef"

/-- A 31-character profile name. -/
def c5Name31 : String := "abcdefghijklmnopqrstuvwxyzabcde"

/-- The empty five-slot profile store
(`struct wlan_network networks[WLAN_MAX_KNOWN_NETWORKS]`, zeroed). -/
def emptyStore : List WlanNetwork :=
  List.replicate WLAN_MAX_KNOWN_NETWORKS emptyNetwork

/-- A store whose five slots are occupied by distinctly-named profiles. -/
def fullStore : List WlanNetwork :=
  [c5Network "n1", c5Network "n2", c5Network "n3", c5Network "n4",
    c5Network "n5"]

/-- A WEP-open station profile with an 8-character key. -/
def c10Network : WlanNetwork :=
  { c1Network with
    security :=
      { type := WlanSecurityType.wepOpen,
        psk := ['a', 'b', 'c', 'd', 'e', 'f', 'g', 'h'], psk_len := 8,
        password_len := 0, mfpc := false, mfpr := false } }

/-- A neutral STA control state (idle, nothing held). -/
def idleCtlState : StaCtlState :=
  { c3State with
    sta_state := CmStaState.idle
    sta_ipv4_state := CmStaState.idle
    sta_ipv6_state := CmStaState.idle
    is_scan_lock := false
    scan_count := 0 }

/-! ## Claim C1 — best-AP selection by RSSI

The claim says the descriptor selected among the matches is the one with
the highest RSSI, comparing RSSI values as signed strengths where
numerically greater is better.  On the code this is false: the selection
loop replaces `best_ap` by `res` when `best_ap->RSSI > res->RSSI`, so the
descriptor kept is the one whose unsigned `RSSI` field is numerically
*smallest* (the field stores the signal attenuation; a smaller value is
the stronger signal). -/

/-- C1, counterexample: two descriptors match the profile, with RSSI
fields 40 and 70; `handle_scan_results` associates to the one with RSSI
field 40, not to the numerically greater 70 the claim would select. -/
theorem C1_counterexample :
    (handle_scan_results false false (fun _ => true) c1Network
        [c1Res1, c1Res2] true true c1State).2.1 =
      ScanDecision.associate c1Res1 ∧
    network_matches_scan_result false false (fun _ => true) c1Network
        c1Res2 = true ∧
    c1Res1.RSSI < c1Res2.RSSI := by
  refine ⟨?_, ?_, ?_⟩ <;> decide

/-- C1, amended: among the matching descriptors,
`handle_scan_results` selects for association one whose `RSSI` field is
numerically smallest (the field is an unsigned strength where smaller is
better); on ties the earliest match wins. -/
theorem C1_selects_min_rssi_match (mfpc mfpr : Bool) (allowed : Nat → Bool)
    (network : WlanNetwork) (results : List WifiScanResult2)
    (assocOk sendOk : Bool) (s : ScanConnState) (best : WifiScanResult2)
    (h : (handle_scan_results mfpc mfpr allowed network results assocOk
        sendOk s).2.1 = ScanDecision.associate best) :
    best ∈ results ∧
      network_matches_scan_result mfpc mfpr allowed network best = true ∧
      ∀ r ∈ results,
        network_matches_scan_result mfpc mfpr allowed network r = true →
        best.RSSI ≤ r.RSSI := by
  simp only [handle_scan_results] at h
  rcases hfold : best_ap_fold
      (network_matches_scan_result mfpc mfpr allowed network) results
    with _ | b
  · simp only [hfold] at h
    split_ifs at h
    exact absurd h (handle_scan_results_tail_ne_associate _ _ _ _)
  · simp only [hfold] at h
    split_ifs at h
    · simp only [ScanDecision.associate.injEq] at h
      subst h
      exact best_ap_fold_spec _ results b hfold
    · exact absurd h (handle_scan_results_tail_ne_associate _ _ _ _)

/-- C1 witness: the amended theorem applied to the concrete two-result
scan of the counterexample. -/
theorem C1_selects_min_rssi_match_witness :
    c1Res1 ∈ [c1Res1, c1Res2] ∧
      network_matches_scan_result false false (fun _ => true) c1Network
        c1Res1 = true ∧
      ∀ r ∈ [c1Res1, c1Res2],
        network_matches_scan_result false false (fun _ => true) c1Network
          r = true →
        c1Res1.RSSI ≤ r.RSSI :=
  C1_selects_min_rssi_match false false (fun _ => true) c1Network
    [c1Res1, c1Res2] true true c1State c1Res1 (by decide)

/-! ## Claim C2 — scan accounting and the rescan limit -/

/-- `handle_scan_results` never pushes `scan_count` past
`WLAN_RESCAN_LIMIT`: the only increment sits behind the
`scan_count < WLAN_RESCAN_LIMIT` guard. -/
theorem handle_scan_results_scan_count_le (mfpc mfpr : Bool)
    (allowed : Nat → Bool) (network : WlanNetwork)
    (results : List WifiScanResult2) (assocOk sendOk : Bool)
    (s : ScanConnState) (hle : s.scan_count ≤ WLAN_RESCAN_LIMIT) :
    (handle_scan_results mfpc mfpr allowed network results assocOk sendOk
      s).1.scan_count ≤ WLAN_RESCAN_LIMIT := by
  have htail : ∀ (s' : ScanConnState) (evs : List WlanEventReason),
      s'.scan_count ≤ WLAN_RESCAN_LIMIT →
      (handle_scan_results_tail sendOk s' evs).1.scan_count ≤
        WLAN_RESCAN_LIMIT := by
    intro s' evs hle'
    unfold handle_scan_results_tail
    split_ifs with h1 h2
    · exact hle'
    · simp only [do_scan]
      split_ifs
      · simpa using h2
      · exact hle'
    · simpa [do_connect_failed] using hle'
  simp only [handle_scan_results]
  rcases hfold : best_ap_fold
      (network_matches_scan_result mfpc mfpr allowed network) results
    with _ | b
  · simp only [hfold]
    split_ifs
    · simpa [do_hidden_scan] using hle
    · exact htail _ _ (by simpa using hle)
  · simp only [hfold]
    split_ifs
    · simpa using hle
    · simpa using hle
    · exact htail _ _ (by simpa [do_connect_failed] using hle)

/-- C2: within one connection attempt, `do_connect` restarts the count at
zero (so it is 1 after its initial scan is accepted), every scan issued
through `do_scan` adds exactly one, `handle_scan_results` keeps the count
at or below `WLAN_RESCAN_LIMIT`, and on a scan with no matching descriptor
and no collected hidden-SSID channels it re-scans while
`scan_count < WLAN_RESCAN_LIMIT` and otherwise emits `NetworkNotFound` and
returns the STA state to IDLE. -/
theorem C2_rescan_limit (mfpc mfpr : Bool) (allowed : Nat → Bool)
    (network : WlanNetwork) (results : List WifiScanResult2)
    (assocOk sendOk : Bool) (s : ScanConnState)
    (hnm : best_ap_fold
      (network_matches_scan_result mfpc mfpr allowed network) results =
      Option.none)
    (hhc : hidden_channels network s.hidden_scan_on results = [])
    (hroam : s.roam_reassoc = false)
    (hreassoc : s.reassoc_control = false) :
    (do_connect sendOk s).scan_count = (if sendOk then 1 else 0) ∧
    (do_scan sendOk s).scan_count =
      s.scan_count + (if sendOk then 1 else 0) ∧
    (∀ (s' : ScanConnState) (results' : List WifiScanResult2),
      s'.scan_count ≤ WLAN_RESCAN_LIMIT →
      (handle_scan_results mfpc mfpr allowed network results' assocOk
        sendOk s').1.scan_count ≤ WLAN_RESCAN_LIMIT) ∧
    (s.scan_count < WLAN_RESCAN_LIMIT →
      (handle_scan_results mfpc mfpr allowed network results assocOk
          sendOk s).2.1 = ScanDecision.rescan ∧
      (handle_scan_results mfpc mfpr allowed network results assocOk
          sendOk s).1.sta_state = CmStaState.scanning ∧
      (handle_scan_results mfpc mfpr allowed network results assocOk
          sendOk s).1.scan_count =
        s.scan_count + (if sendOk then 1 else 0)) ∧
    (WLAN_RESCAN_LIMIT ≤ s.scan_count →
      (handle_scan_results mfpc mfpr allowed network results assocOk
          sendOk s).2.1 = ScanDecision.fail false ∧
      (handle_scan_results mfpc mfpr allowed network results assocOk
          sendOk s).1.sta_state = CmStaState.idle ∧
      (handle_scan_results mfpc mfpr allowed network results assocOk
          sendOk s).2.2 = [WlanEventReason.networkNotFound] ∧
      (handle_scan_results mfpc mfpr allowed network results assocOk
          sendOk s).1.scan_count = s.scan_count) := by
  refine ⟨?_, ?_, ?_, ?_, ?_⟩
  · simp only [do_connect, do_scan]
    split_ifs <;> rfl
  · simp only [do_scan]
    split_ifs <;> simp
  · intro s' results' hle
    exact handle_scan_results_scan_count_le mfpc mfpr allowed network
      results' assocOk sendOk s' hle
  · intro hlt
    simp only [handle_scan_results, hnm]
    rw [if_neg (by simpa using hhc)]
    unfold handle_scan_results_tail
    rw [if_neg (by simpa using hroam)]
    rw [if_pos (by simpa using hlt)]
    simp only [do_scan]
    split_ifs <;> simp
  · intro hge
    simp only [handle_scan_results, hnm]
    rw [if_neg (by simpa using hhc)]
    unfold handle_scan_results_tail
    rw [if_neg (by simpa using hroam)]
    rw [if_neg (by simpa using Nat.not_lt.mpr hge)]
    simp [do_connect_failed, hreassoc]

/-- C2 witness: the theorem applied to an exhausted attempt
(`scan_count = WLAN_RESCAN_LIMIT`) over an empty result set. -/
theorem C2_rescan_limit_witness :
    (do_connect true c2StateExhausted).scan_count = (if true then 1 else 0) ∧
    (do_scan true c2StateExhausted).scan_count =
      c2StateExhausted.scan_count + (if true then 1 else 0) ∧
    (∀ (s' : ScanConnState) (results' : List WifiScanResult2),
      s'.scan_count ≤ WLAN_RESCAN_LIMIT →
      (handle_scan_results false false (fun _ => true) c1Network results'
        true true s').1.scan_count ≤ WLAN_RESCAN_LIMIT) ∧
    (c2StateExhausted.scan_count < WLAN_RESCAN_LIMIT →
      (handle_scan_results false false (fun _ => true) c1Network [] true
          true c2StateExhausted).2.1 = ScanDecision.rescan ∧
      (handle_scan_results false false (fun _ => true) c1Network [] true
          true c2StateExhausted).1.sta_state = CmStaState.scanning ∧
      (handle_scan_results false false (fun _ => true) c1Network [] true
          true c2StateExhausted).1.scan_count =
        c2StateExhausted.scan_count + (if true then 1 else 0)) ∧
    (WLAN_RESCAN_LIMIT ≤ c2StateExhausted.scan_count →
      (handle_scan_results false false (fun _ => true) c1Network [] true
          true c2StateExhausted).2.1 = ScanDecision.fail false ∧
      (handle_scan_results false false (fun _ => true) c1Network [] true
          true c2StateExhausted).1.sta_state = CmStaState.idle ∧
      (handle_scan_results false false (fun _ => true) c1Network [] true
          true c2StateExhausted).2.2 =
        [WlanEventReason.networkNotFound] ∧
      (handle_scan_results false false (fun _ => true) c1Network [] true
          true c2StateExhausted).1.scan_count =
        c2StateExhausted.scan_count) :=
  C2_rescan_limit false false (fun _ => true) c1Network [] true true
    c2StateExhausted (by decide) (by decide) (by decide) (by decide)

/-! ## Claim C3 — USER_DISCONNECT handling

The claim says a USER_DISCONNECT processed in any STA state emits
`UserDisconnect`, releases the scan lock if held, brings the interface
down, clears the reassociation counters and returns the STA state (and IP
substates) to IDLE.  On the code this fails in the SCANNING state: the
`wlan.sta_state == CM_STA_SCANNING` branch of `wlcm_request_disconnect`
moves the states to IDLE and emits the callback but never touches
`is_scan_lock` (only the `>= CM_STA_ASSOCIATING` branch releases it).
Moreover the counters are not cleared but saturated
(`scan_count = WLAN_RESCAN_LIMIT`, `reassoc_count = WLAN_RECONNECT_LIMIT`)
and only when `reassoc_control && reassoc_request`, and in
IDLE/INITIALIZING the function returns early without emitting anything. -/

/-- C3, counterexample: a disconnect processed while SCANNING with the
scan lock held leaves `is_scan_lock` set (the claim demands it become 0),
even though `UserDisconnect` is emitted and the state returns to IDLE. -/
theorem C3_counterexample :
    c3State.sta_state = CmStaState.scanning ∧
    c3State.is_scan_lock = true ∧
    (wlcm_request_disconnect true true c3State).st.is_scan_lock = true ∧
    (wlcm_request_disconnect true true c3State).events =
      [WlanEventReason.userDisconnect] ∧
    (wlcm_request_disconnect true true c3State).st.sta_state =
      CmStaState.idle := by
  refine ⟨?_, ?_, ?_, ?_, ?_⟩ <;> decide

/-- C3, amended: with the station interface up, a USER_DISCONNECT
processed in SCANNING or in any state from ASSOCIATING up emits
`UserDisconnect`, brings the interface down, and moves `sta_state` and
both IP substates to IDLE; the scan lock is released in the
ASSOCIATING-and-above branch but left untouched in the SCANNING branch;
and when `reassoc_control` and `reassoc_request` are both set the
reassociation counters are saturated to their limits (not cleared) and
the pending request is dropped. -/
theorem C3_disconnect_aborts (s : StaCtlState)
    (h : s.sta_state = CmStaState.scanning ∨
      CmStaState.associating.val ≤ s.sta_state.val) :
    (wlcm_request_disconnect true true s).events =
      [WlanEventReason.userDisconnect] ∧
    (wlcm_request_disconnect true true s).iface_down = true ∧
    (wlcm_request_disconnect true true s).st.sta_state = CmStaState.idle ∧
    (wlcm_request_disconnect true true s).st.sta_ipv4_state =
      CmStaState.idle ∧
    (wlcm_request_disconnect true true s).st.sta_ipv6_state =
      CmStaState.idle ∧
    (CmStaState.associating.val ≤ s.sta_state.val →
      (wlcm_request_disconnect true true s).st.is_scan_lock = false) ∧
    (s.sta_state = CmStaState.scanning →
      (wlcm_request_disconnect true true s).st.is_scan_lock =
        s.is_scan_lock) ∧
    (s.reassoc_control = true → s.reassoc_request = true →
      (wlcm_request_disconnect true true s).st.scan_count =
          WLAN_RESCAN_LIMIT ∧
        (wlcm_request_disconnect true true s).st.reassoc_count =
          WLAN_RECONNECT_LIMIT ∧
        (wlcm_request_disconnect true true s).st.reassoc_request = false)
    := by
  have huser : is_user_scanning s = false := by
    rcases h with h | h
    · simp [is_user_scanning, h]
    · unfold is_user_scanning
      by_contra hc
      simp only [Bool.not_eq_false, decide_eq_true_eq] at hc
      rw [hc] at h
      simp [CmStaState.val] at h
  have hne_idle : (s.sta_state = CmStaState.idle) = False := by
    rcases h with h | h
    · simp [h]
    · simp only [eq_iff_iff, iff_false]
      intro hc
      rw [hc] at h
      simp [CmStaState.val] at h
  have hval : ¬(s.sta_state.val < CmStaState.idle.val) := by
    rcases h with h | h
    · simp [h, CmStaState.val]
    · simp only [CmStaState.val] at h ⊢
      omega
  unfold wlcm_request_disconnect
  rw [if_neg (by decide)]
  rw [if_neg (by simp [is_state, huser, hval, hne_idle])]
  rw [if_neg (by simp [huser])]
  rcases h with h | h
  · have hna : ¬(CmStaState.associating.val ≤ s.sta_state.val) := by
      simp [h, CmStaState.val]
    rw [if_neg (by simpa using hna), if_pos (by simpa using h)]
    refine ⟨rfl, rfl, ?_⟩
    dsimp only
    split_ifs with hr hw <;>
      simp_all [CmStaState.val]
  · rw [if_pos (by simpa using h)]
    have hns : ¬(s.sta_state = CmStaState.scanning) := by
      intro hc
      rw [hc] at h
      simp [CmStaState.val] at h
    refine ⟨rfl, rfl, ?_⟩
    dsimp only
    split_ifs with hl hr hw hr hw <;>
      simp_all [CmStaState.val]

/-- C3 witness: the amended theorem applied to an ASSOCIATING station
holding the scan lock with a reassociation pending. -/
theorem C3_disconnect_aborts_witness :
    (wlcm_request_disconnect true true c3StateAssoc).events =
      [WlanEventReason.userDisconnect] ∧
    (wlcm_request_disconnect true true c3StateAssoc).iface_down = true ∧
    (wlcm_request_disconnect true true c3StateAssoc).st.sta_state =
      CmStaState.idle ∧
    (wlcm_request_disconnect true true c3StateAssoc).st.sta_ipv4_state =
      CmStaState.idle ∧
    (wlcm_request_disconnect true true c3StateAssoc).st.sta_ipv6_state =
      CmStaState.idle ∧
    (CmStaState.associating.val ≤ c3StateAssoc.sta_state.val →
      (wlcm_request_disconnect true true c3StateAssoc).st.is_scan_lock =
        false) ∧
    (c3StateAssoc.sta_state = CmStaState.scanning →
      (wlcm_request_disconnect true true c3StateAssoc).st.is_scan_lock =
        c3StateAssoc.is_scan_lock) ∧
    (c3StateAssoc.reassoc_control = true →
      c3StateAssoc.reassoc_request = true →
      (wlcm_request_disconnect true true c3StateAssoc).st.scan_count =
          WLAN_RESCAN_LIMIT ∧
        (wlcm_request_disconnect true true c3StateAssoc).st.reassoc_count =
          WLAN_RECONNECT_LIMIT ∧
        (wlcm_request_disconnect true true
          c3StateAssoc).st.reassoc_request = false) :=
  C3_disconnect_aborts c3StateAssoc (Or.inr (by decide))

/-! ## Claim C4 — PSK validation for WPA/WPA2/mixed -/

/-- The PSK length/format check shared by the WPA-family cases of
`wlan_is_key_valid`, as an explicit iff: valid exactly for an ASCII
passphrase of 8..63 characters or exactly 64 hex digits. -/
theorem psk_length_check_iff (psk : List Char) (len : Nat) :
    ((if len < WLAN_PSK_MIN_LENGTH || WLAN_PSK_MAX_LENGTH ≤ len then false
      else if len = WLAN_PSK_MAX_LENGTH - 1 && !isHexNumber psk len then
        false
      else true) = true) ↔
      ((WLAN_PSK_MIN_LENGTH ≤ len ∧ len ≤ 63) ∨
        (len = 64 ∧ isHexNumber psk len = true)) := by
  simp only [WLAN_PSK_MIN_LENGTH, WLAN_PSK_MAX_LENGTH]
  split_ifs with h1 h2
  · simp only [Bool.false_eq_true, false_iff]
    simp only [Bool.or_eq_true, decide_eq_true_eq] at h1
    rintro (⟨ha, hb⟩ | ⟨ha, hb⟩) <;> rcases h1 with h1 | h1 <;> omega
  · simp only [Bool.false_eq_true, false_iff]
    simp only [Bool.and_eq_true, decide_eq_true_eq, Bool.not_eq_true'] at h2
    simp only [Bool.or_eq_true, decide_eq_true_eq, not_or, not_lt,
      not_le] at h1
    rintro (⟨ha, hb⟩ | ⟨ha, hb⟩)
    · omega
    · rw [h2.2] at hb
      exact Bool.false_ne_true hb
  · simp only [true_iff]
    simp only [Bool.or_eq_true, decide_eq_true_eq, not_or, not_lt,
      not_le] at h1
    simp only [Bool.and_eq_true, decide_eq_true_eq, Bool.not_eq_true',
      not_and] at h2
    by_cases hl : len = 64
    · refine Or.inr ⟨hl, ?_⟩
      simpa using h2 hl
    · exact Or.inl ⟨h1.1, by omega⟩

/-- C4: for a WPA, WPA2, or WPA/WPA2-mixed profile, the key passes
`wlan_is_key_valid` iff the PSK length is 8..63 or it is exactly 64 hex
digits, and a profile failing the key check is rejected by
`wlan_add_network` with `-WM_E_INVAL`, leaving the store unchanged. -/
theorem C4_psk_validation (network : WlanNetwork)
    (htype : network.security.type = WlanSecurityType.wpa ∨
      network.security.type = WlanSecurityType.wpa2 ∨
      network.security.type = WlanSecurityType.wpaWpa2Mixed) :
    (wlan_is_key_valid network = true ↔
      ((WLAN_PSK_MIN_LENGTH ≤ network.security.psk_len ∧
          network.security.psk_len ≤ 63) ∨
        (network.security.psk_len = 64 ∧
          isHexNumber network.security.psk network.security.psk_len =
            true))) ∧
    (∀ (sta : StaCtlState) (clearPskOk : Bool) (store : List WlanNetwork),
      wlan_is_key_valid network = false →
      wlan_add_network false sta clearPskOk store network =
        (ApiResult.invalid, store)) := by
  constructor
  · rcases htype with h | h | h <;>
      (simp only [wlan_is_key_valid, h]
       exact psk_length_check_iff network.security.psk
          network.security.psk_len)
  · intro sta clearPskOk store hkey
    unfold wlan_add_network
    rw [if_neg (by simp [is_running])]
    split_ifs <;> simp_all

/-- C4 witness: the theorem applied to a WPA2 profile with an 8-character
passphrase. -/
theorem C4_psk_validation_witness :
    (wlan_is_key_valid (c4Network ['p', 'a', 's', 's', 'w', 'o', 'r', 'd']
        8) = true ↔
      ((WLAN_PSK_MIN_LENGTH ≤
          (c4Network ['p', 'a', 's', 's', 'w', 'o', 'r', 'd']
            8).security.psk_len ∧
        (c4Network ['p', 'a', 's', 's', 'w', 'o', 'r', 'd']
            8).security.psk_len ≤ 63) ∨
        ((c4Network ['p', 'a', 's', 's', 'w', 'o', 'r', 'd']
            8).security.psk_len = 64 ∧
          isHexNumber
            (c4Network ['p', 'a', 's', 's', 'w', 'o', 'r', 'd']
              8).security.psk
            (c4Network ['p', 'a', 's', 's', 'w', 'o', 'r', 'd']
              8).security.psk_len = true))) ∧
    (∀ (sta : StaCtlState) (clearPskOk : Bool) (store : List WlanNetwork),
      wlan_is_key_valid (c4Network ['p', 'a', 's', 's', 'w', 'o', 'r', 'd']
        8) = false →
      wlan_add_network false sta clearPskOk store
          (c4Network ['p', 'a', 's', 's', 'w', 'o', 'r', 'd'] 8) =
        (ApiResult.invalid, store)) :=
  C4_psk_validation (c4Network ['p', 'a', 's', 's', 'w', 'o', 'r', 'd'] 8)
    (Or.inr (Or.inl rfl))

/-! ## Claim C5 — profile-name length validation

The claim says names of length 1..32 are accepted and only empty or
longer-than-32 names are rejected.  On the code the name check is
`len < WLAN_NETWORK_NAME_MIN_LENGTH || len >= WLAN_NETWORK_NAME_MAX_LENGTH`
with `WLAN_NETWORK_NAME_MAX_LENGTH = 32`, so a name of exactly 32
characters is rejected too: the accepted lengths are 1..31. -/

/-- C5, counterexample: an otherwise-valid profile whose name has exactly
32 characters is rejected with `-WM_E_INVAL` (the claim says length 32 is
accepted). -/
theorem C5_counterexample :
    c5Name32.length = 32 ∧
    wlan_add_network false idleCtlState true emptyStore
        (c5Network c5Name32) =
      (ApiResult.invalid, emptyStore) := by
  refine ⟨?_, ?_⟩ <;> decide

/-- C5, amended: `wlan_add_network` rejects with `-WM_E_INVAL` every name
that is empty or has 32 or more characters, and accepts names of length
1..31 (on an otherwise-valid open STA profile added to an empty store). -/
theorem C5_name_length_validation :
    (∀ (sta : StaCtlState) (clearPskOk : Bool) (store : List WlanNetwork)
        (network : WlanNetwork),
      network.name.length = 0 ∨
          WLAN_NETWORK_NAME_MAX_LENGTH ≤ network.name.length →
      wlan_add_network false sta clearPskOk store network =
        (ApiResult.invalid, store)) ∧
    (∀ (sta : StaCtlState) (name : String),
      WLAN_NETWORK_NAME_MIN_LENGTH ≤ name.length → name.length ≤ 31 →
      (wlan_add_network false sta true emptyStore (c5Network name)).1 =
        ApiResult.ok) := by
  constructor
  · intro sta clearPskOk store network hbad
    unfold wlan_add_network
    rw [if_neg (by simp [is_running])]
    rw [if_pos (by
      simp only [WLAN_NETWORK_NAME_MIN_LENGTH, WLAN_NETWORK_NAME_MAX_LENGTH]
        at hbad ⊢
      simp only [Bool.or_eq_true, decide_eq_true_eq]
      omega)]
  · intro sta name h1 h2
    unfold wlan_add_network
    rw [if_neg (by simp [is_running])]
    rw [if_neg (by
      simp only [WLAN_NETWORK_NAME_MIN_LENGTH, WLAN_NETWORK_NAME_MAX_LENGTH]
        at h1 h2 ⊢
      simp only [Bool.or_eq_true, decide_eq_true_eq, c5Network, c1Network,
        not_or, not_lt, not_le]
      omega)]
    simp [c5Network, c1Network, is_bssid_any, wlan_is_key_valid,
      normalize_bss_type, emptyStore, emptyNetwork, WLAN_MAX_KNOWN_NETWORKS,
      find_slot]

/-- C5 witness: a 31-character name is accepted, an empty-name profile is
rejected. -/
theorem C5_name_length_validation_witness :
    (wlan_add_network false idleCtlState true emptyStore
        (c5Network "") = (ApiResult.invalid, emptyStore)) ∧
    (wlan_add_network false idleCtlState true emptyStore
        (c5Network c5Name31)).1 = ApiResult.ok :=
  ⟨(C5_name_length_validation.1 idleCtlState true emptyStore
      (c5Network "") (Or.inl (by decide))),
    (C5_name_length_validation.2 idleCtlState c5Name31 (by decide)
      (by decide))⟩

/-! ## Claim C6 — user scan requests while connecting are dropped -/

/-- C6: a user scan request processed while the STA state is neither IDLE
nor CONNECTED (and no user scan is in flight whose stashed state is one of
those, i.e. the state is not SCANNING_USER) is dropped without invoking
`wifi_send_scan_cmd`, and the scan lock is released before returning. -/
theorem C6_scan_dropped_while_connecting (hasData sendOk : Bool)
    (s : StaCtlState)
    (h1 : s.sta_state ≠ CmStaState.idle)
    (h2 : s.sta_state ≠ CmStaState.connected)
    (h3 : s.sta_state ≠ CmStaState.scanningUser) :
    (wlcm_request_scan hasData sendOk s).issued = false ∧
    (wlcm_request_scan hasData sendOk s).st.is_scan_lock = false := by
  have hallow : is_scanning_allowed s = false := by
    simp [is_scanning_allowed, is_state, is_user_scanning, h1, h2, h3]
  unfold wlcm_request_scan
  cases hasData
  · simp
  · simp [hallow]

/-- C6 witness: a scan request processed while ASSOCIATING is dropped
with the lock released. -/
theorem C6_scan_dropped_while_connecting_witness :
    (wlcm_request_scan true true c3StateAssoc).issued = false ∧
    (wlcm_request_scan true true c3StateAssoc).st.is_scan_lock = false :=
  C6_scan_dropped_while_connecting true true c3StateAssoc (by decide)
    (by decide) (by decide)

/-! ## Claim C7 — profile-store capacity and name uniqueness -/

/-- C7: with a valid profile, `wlan_add_network` returns `-WM_E_NOMEM` on
a store whose slots are all occupied (by other names) and `-WM_E_INVAL`
when the name is already taken; both `wlan_add_network` and
`wlan_remove_network` preserve the pairwise-distinct-names invariant and
the slot count, so the number of stored profiles never exceeds the
`WLAN_MAX_KNOWN_NETWORKS` slots. -/
theorem C7_store_invariants (running : Bool) (sta : StaCtlState)
    (clearPskOk : Bool) (uap_state : CmUapState) (cur_idx cur_uap_idx : Nat)
    (store : List WlanNetwork) (network : WlanNetwork) (name : String) :
    (wlan_add_network_validates network = true →
      (∀ nw ∈ store, nw.name ≠ "") →
      network.name ∉ storeNames store →
      wlan_add_network false sta clearPskOk store network =
        (ApiResult.nomem, store)) ∧
    (wlan_add_network_validates network = true →
      network.name ∈ storeNames store →
      wlan_add_network false sta clearPskOk store network =
        (ApiResult.invalid, store)) ∧
    (NamesDistinct store →
      NamesDistinct
        (wlan_add_network running sta clearPskOk store network).2) ∧
    (NamesDistinct store →
      NamesDistinct
        (wlan_remove_network running sta uap_state cur_idx cur_uap_idx
          store name).2) ∧
    ((wlan_add_network running sta clearPskOk store network).2.length =
      store.length) ∧
    ((wlan_remove_network running sta uap_state cur_idx cur_uap_idx store
      name).2.length = store.length) ∧
    (storeNames store).length ≤ store.length := by
  refine ⟨?_, ?_, ?_, ?_, ?_, ?_, ?_⟩
  · intro hv hfull hnodup
    exact wlan_add_network_full sta clearPskOk store network hv hfull
      hnodup
  · intro hv hdup
    exact wlan_add_network_dup sta clearPskOk store network hv hdup
  · exact wlan_add_network_preserves_distinct running sta clearPskOk store
      network
  · exact wlan_remove_network_preserves_distinct running sta uap_state
      cur_idx cur_uap_idx store name
  · exact (wlan_store_length_invariant running sta clearPskOk uap_state
      cur_idx cur_uap_idx store network name).1
  · exact (wlan_store_length_invariant running sta clearPskOk uap_state
      cur_idx cur_uap_idx store network name).2
  · calc (storeNames store).length
        = (store.filter (fun nw => nw.name ≠ "")).length := by
          simp [storeNames]
      _ ≤ store.length := List.length_filter_le _ _

/-- C7 witness: a sixth profile added to five occupied slots yields
`-WM_E_NOMEM`; a duplicate of slot "n1" yields `-WM_E_INVAL`. -/
theorem C7_store_invariants_witness :
    (wlan_add_network_validates (c5Network "n6") = true →
      (∀ nw ∈ fullStore, nw.name ≠ "") →
      (c5Network "n6").name ∉ storeNames fullStore →
      wlan_add_network false idleCtlState true fullStore
          (c5Network "n6") =
        (ApiResult.nomem, fullStore)) ∧
    (wlan_add_network_validates (c5Network "n6") = true →
      (c5Network "n6").name ∈ storeNames fullStore →
      wlan_add_network false idleCtlState true fullStore
          (c5Network "n6") =
        (ApiResult.invalid, fullStore)) ∧
    (NamesDistinct fullStore →
      NamesDistinct
        (wlan_add_network false idleCtlState true fullStore
          (c5Network "n6")).2) ∧
    (NamesDistinct fullStore →
      NamesDistinct
        (wlan_remove_network false idleCtlState CmUapState.initializing 0 0
          fullStore "n1").2) ∧
    ((wlan_add_network false idleCtlState true fullStore
      (c5Network "n6")).2.length = fullStore.length) ∧
    ((wlan_remove_network false idleCtlState CmUapState.initializing 0 0
      fullStore "n1").2.length = fullStore.length) ∧
    (storeNames fullStore).length ≤ fullStore.length :=
  C7_store_invariants false idleCtlState true CmUapState.initializing 0 0
    fullStore (c5Network "n6") "n1"

/-! ## Claim C8 — deferred sleep confirm and the 10 ms dispatcher tick -/

/-- C8: on entry to PRE_SLEEP, `wlan_host_sleep_and_sleep_confirm` defers
(sets `g_req_sl_confirm`, sends nothing, leaves `cm_ps_state` alone)
exactly when the driver has an outstanding transfer or — with host sleep
configured — the host-sleep command fails or neither uAP nor STA is
active; when the confirm is sent, `cm_ps_state` becomes `SLEEP_CFM` and
the flag is cleared.  The dispatcher waits 10 ms instead of forever while
the flag is set, and a receive timeout re-drives the IEEE-PS FSM with
event SLEEP exactly when the STA is still CONNECTED and the flag is still
set. -/
theorem C8_sleep_confirm_protocol (xferPending hsSendOk uapStarted
    staConnected flag conn : Bool) (s : SleepConfirmState) :
    ((wlan_host_sleep_and_sleep_confirm xferPending hsSendOk uapStarted
        staConnected s).2 = false ↔
      (xferPending = true ∨
        (s.hs_configured = true ∧
          (hsSendOk = false ∨
            (uapStarted = false ∧ staConnected = false))))) ∧
    ((wlan_host_sleep_and_sleep_confirm xferPending hsSendOk uapStarted
        staConnected s).2 = false →
      (wlan_host_sleep_and_sleep_confirm xferPending hsSendOk uapStarted
          staConnected s).1.g_req_sl_confirm = true ∧
        (wlan_host_sleep_and_sleep_confirm xferPending hsSendOk uapStarted
          staConnected s).1.cm_ps_state = s.cm_ps_state) ∧
    ((wlan_host_sleep_and_sleep_confirm xferPending hsSendOk uapStarted
        staConnected s).2 = true →
      (wlan_host_sleep_and_sleep_confirm xferPending hsSendOk uapStarted
          staConnected s).1.cm_ps_state = CmPsState.sleepCfm ∧
        (wlan_host_sleep_and_sleep_confirm xferPending hsSendOk uapStarted
          staConnected s).1.g_req_sl_confirm = false) ∧
    cm_main_recv_timeout true = some DELAYED_SLP_CFM_DUR ∧
    cm_main_recv_timeout false = Option.none ∧
    cm_main_timeout_retries conn flag = (conn && flag) := by
  obtain ⟨ps, fl, hs⟩ := s
  cases xferPending <;> cases hsSendOk <;> cases uapStarted <;>
    cases staConnected <;> cases conn <;> cases flag <;> cases hs <;>
    simp [wlan_host_sleep_and_sleep_confirm, cm_main_recv_timeout,
      cm_main_timeout_retries]

/-- C8 witness: a deferral forced by an outstanding driver transfer while
the STA is connected, followed by the 10 ms tick retry. -/
theorem C8_sleep_confirm_protocol_witness :
    ((wlan_host_sleep_and_sleep_confirm true true true true
        ⟨CmPsState.awake, false, false⟩).2 = false ↔
      (true = true ∨
        ((⟨CmPsState.awake, false, false⟩ : SleepConfirmState).hs_configured
            = true ∧
          (true = false ∨ (true = false ∧ true = false))))) ∧
    ((wlan_host_sleep_and_sleep_confirm true true true true
        ⟨CmPsState.awake, false, false⟩).2 = false →
      (wlan_host_sleep_and_sleep_confirm true true true true
          ⟨CmPsState.awake, false, false⟩).1.g_req_sl_confirm = true ∧
        (wlan_host_sleep_and_sleep_confirm true true true true
          ⟨CmPsState.awake, false, false⟩).1.cm_ps_state =
          (⟨CmPsState.awake, false, false⟩ :
            SleepConfirmState).cm_ps_state) ∧
    ((wlan_host_sleep_and_sleep_confirm true true true true
        ⟨CmPsState.awake, false, false⟩).2 = true →
      (wlan_host_sleep_and_sleep_confirm true true true true
          ⟨CmPsState.awake, false, false⟩).1.cm_ps_state =
          CmPsState.sleepCfm ∧
        (wlan_host_sleep_and_sleep_confirm true true true true
          ⟨CmPsState.awake, false, false⟩).1.g_req_sl_confirm = false) ∧
    cm_main_recv_timeout true = some DELAYED_SLP_CFM_DUR ∧
    cm_main_recv_timeout false = Option.none ∧
    cm_main_timeout_retries true true = (true && true) :=
  C8_sleep_confirm_protocol true true true true true true
    ⟨CmPsState.awake, false, false⟩

/-! ## Claim C9 — uAP start and address configuration -/

/-- C9: from CONFIGURED, a successful `UAP_STARTED` with the address
configuration accepted moves the uAP FSM to STARTED (an address-setup
failure reports `AddressFailed` instead); then in STARTED a successful
static address-configuration event reaches IP_UP and reports
`UapSuccess`, while a failed one reports `AddressFailed` and does not
reach IP_UP (the FSM falls back to INITIALIZING). -/
theorem C9_uap_address_configuration (reasonSuccess netCfgOk
    addrStatic : Bool) :
    (uap_state_machine CmUapState.configured UapEvent.uapStarted true true
        addrStatic = (CmUapState.started, [])) ∧
    (uap_state_machine CmUapState.configured UapEvent.uapStarted true false
        addrStatic =
      (CmUapState.configured, [WlanEventReason.addressFailed])) ∧
    (uap_state_machine CmUapState.started UapEvent.uapNetAddrConfig true
        netCfgOk true = (CmUapState.ipUp, [WlanEventReason.uapSuccess])) ∧
    (reasonSuccess = false ∨ addrStatic = false →
      uap_state_machine CmUapState.started UapEvent.uapNetAddrConfig
          reasonSuccess netCfgOk addrStatic =
        (CmUapState.initializing, [WlanEventReason.addressFailed])) := by
  cases reasonSuccess <;> cases netCfgOk <;> cases addrStatic <;>
    exact ⟨by decide, by decide, by decide, by decide⟩

/-- C9 witness: the theorem applied to a failed (non-success)
address-configuration event. -/
theorem C9_uap_address_configuration_witness :
    (uap_state_machine CmUapState.configured UapEvent.uapStarted true true
        true = (CmUapState.started, [])) ∧
    (uap_state_machine CmUapState.configured UapEvent.uapStarted true false
        true =
      (CmUapState.configured, [WlanEventReason.addressFailed])) ∧
    (uap_state_machine CmUapState.started UapEvent.uapNetAddrConfig true
        true true = (CmUapState.ipUp, [WlanEventReason.uapSuccess])) ∧
    (false = false ∨ true = false →
      uap_state_machine CmUapState.started UapEvent.uapNetAddrConfig false
          true true =
        (CmUapState.initializing, [WlanEventReason.addressFailed])) :=
  C9_uap_address_configuration false true true

/-! ## Claim C10 — WEP profiles can never be stored -/

/-- A profile failing `wlan_is_key_valid` is always turned away before the
store is touched: `WLAN_ERROR_STATE` when the STA-state precondition
fires, `-WM_E_INVAL` otherwise. -/
theorem wlan_add_network_of_key_invalid (running : Bool)
    (sta : StaCtlState) (clearPskOk : Bool) (store : List WlanNetwork)
    (network : WlanNetwork) (hkey : wlan_is_key_valid network = false) :
    wlan_add_network running sta clearPskOk store network =
      ((if network.role = WlanBssRole.sta &&
          (is_running running sta && !is_state sta CmStaState.idle &&
            !is_state sta CmStaState.associated &&
            !is_state sta CmStaState.connected) then ApiResult.stateError
        else ApiResult.invalid), store) := by
  unfold wlan_add_network
  split_ifs with h1 h2 h3 h4 h5 h6 h7
  · rfl
  · rfl
  · rfl
  · rfl
  · rfl
  · rfl
  · rfl
  · exact absurd (by simp [hkey]) h7

/-- C10: `wlan_is_key_valid` is false for every WEP-open or WEP-shared
profile regardless of the key material, so `wlan_add_network` never
stores such a profile: the result is never `WM_SUCCESS`, the store is
unchanged, and whenever the STA-state precondition does not interfere
(e.g. the manager is not running) the verdict is precisely
`-WM_E_INVAL`. -/
theorem C10_wep_rejected (running : Bool) (sta : StaCtlState)
    (clearPskOk : Bool) (store : List WlanNetwork) (network : WlanNetwork)
    (hwep : network.security.type = WlanSecurityType.wepOpen ∨
      network.security.type = WlanSecurityType.wepShared) :
    wlan_is_key_valid network = false ∧
    (wlan_add_network running sta clearPskOk store network).1 ≠
      ApiResult.ok ∧
    (wlan_add_network running sta clearPskOk store network).2 = store ∧
    (running = false →
      (wlan_add_network running sta clearPskOk store network).1 =
        ApiResult.invalid) := by
  have hkey : wlan_is_key_valid network = false := by
    rcases hwep with h | h <;> simp [wlan_is_key_valid, h]
  have hchar := wlan_add_network_of_key_invalid running sta clearPskOk
    store network hkey
  refine ⟨hkey, ?_, ?_, ?_⟩
  · rw [hchar]
    split_ifs <;> simp
  · rw [hchar]
  · intro hrun
    subst hrun
    rw [hchar]
    simp [is_running]

/-- C10 witness: a WEP-open profile with an 8-character key is rejected
with `-WM_E_INVAL` on an empty store. -/
theorem C10_wep_rejected_witness :
    wlan_is_key_valid c10Network = false ∧
    (wlan_add_network false idleCtlState true emptyStore c10Network).1 ≠
      ApiResult.ok ∧
    (wlan_add_network false idleCtlState true emptyStore c10Network).2 =
      emptyStore ∧
    (false = false →
      (wlan_add_network false idleCtlState true emptyStore c10Network).1 =
        ApiResult.invalid) :=
  C10_wep_rejected false idleCtlState true emptyStore c10Network
    (Or.inl rfl)

end Wlcmgr
